import Mathlib

/-!
Verification of `src/main.c` of the `pico_hid_device` repository: a shallow
embedding of the HID demo state machine (`hid_task`), the report-transport
helpers (`send_*`), the USB lifecycle callbacks (`tud_mount_cb`,
`tud_umount_cb`, `tud_suspend_cb`, `tud_resume_cb`, `tud_hid_set_report_cb`)
and the LED blinking task, together with proofs of the testable properties
stated in the specification.

Modelling conventions:
* `uint32_t` values are `Nat`s kept below `2^32`; the C expression
  `a - b` on `uint32_t` is `usub32 a b`.
* `board_millis()` is an input: each polling tick of `hid_task` receives a
  `TickInput` carrying the clock value and the transport's status bits
  (`tud_mounted()`, `tud_suspended()`, `tud_hid_ready()`), all sampled once
  for the tick.
* A send helper returns `Option HidReport`: `some r` means the helper
  returned `true` and handed payload `r` to the transport's send primitive
  (which is modelled as always accepting); `none` means it returned `false`
  and handed nothing over.
* `tud_remote_wakeup()` is not a HID report and produces no output in the
  model.
-/

namespace PicoHid

/-- The modulus of `uint32_t` arithmetic, 2^32. -/
def UINT32_MOD : Nat := 4294967296

/-- Unsigned 32-bit subtraction `a - b` (wrap-around). -/
def usub32 (a b : Nat) : Nat :=
  (a % UINT32_MOD + (UINT32_MOD - b % UINT32_MOD)) % UINT32_MOD

/-! Blink pattern constants (main.c lines 44-48). -/

def BLINK_NOT_MOUNTED : Nat := 250
def BLINK_MOUNTED : Nat := 1000
def BLINK_SUSPENDED : Nat := 2500

/-! HID usage-table and descriptor constants, from the tinyusb headers and
`usb_descriptors.h` included by main.c. -/

def HID_KEY_A : Nat := 0x04
def HID_KEY_1 : Nat := 0x1E
def HID_KEY_SPACE : Nat := 0x2C
def KEYBOARD_MODIFIER_LEFTSHIFT : Nat := 0x02
def KEYBOARD_LED_CAPSLOCK : Nat := 0x02
def MOUSE_BUTTON_LEFT : Nat := 0x01
def HID_REPORT_TYPE_OUTPUT : Nat := 2
def REPORT_ID_KEYBOARD : Nat := 1
def REPORT_ID_MOUSE : Nat := 2

/-- An outbound HID report payload: keyboard variant (report id, modifier
bitmask, 6 keycode slots) or mouse variant (report id, buttons, x, y,
vertical, horizontal). -/
inductive HidReport
  | keyboard (report_id modifier : Nat) (keycode : List Nat)
  | mouse (report_id buttons : Nat) (x y vertical horizontal : Int)
deriving DecidableEq

/-- The transport's keyboard send primitive
`tud_hid_keyboard_report(report_id, modifier, keycode)`. A `NULL` keycode
pointer (modelled as `none`) sends six zero keycodes. Modelled as always
accepting the payload. -/
def tud_hid_keyboard_report (report_id modifier : Nat)
    (keycode : Option (List Nat)) : HidReport :=
  HidReport.keyboard report_id modifier (keycode.getD [0, 0, 0, 0, 0, 0])

/-- Function `send_keyboard_report` (main.c lines 67-74): skip if hid is not ready,
otherwise forward to `tud_hid_keyboard_report`. -/
def send_keyboard_report (ready : Bool) (report_id modifier : Nat)
    (keycode : List Nat) : Option HidReport :=
  if !ready then none
  else some (tud_hid_keyboard_report report_id modifier (some keycode))

/-- Function `send_key_press` (main.c lines 81-85): 6-slot keycode array with the
first slot populated, rest zero. -/
def send_key_press (ready : Bool) (modifier key_code : Nat) : Option HidReport :=
  send_keyboard_report ready REPORT_ID_KEYBOARD modifier [key_code, 0, 0, 0, 0, 0]

/-- Function `send_key_release` (main.c lines 90-92): sends an all-zero keyboard
report. Note: the source contains no `tud_hid_ready()` check here; the
payload is handed to `tud_hid_keyboard_report` unconditionally. -/
def send_key_release (ready : Bool) : Option HidReport :=
  some (tud_hid_keyboard_report REPORT_ID_KEYBOARD 0 none)

/-- Function `send_mouse_move` (main.c lines 97-103). -/
def send_mouse_move (ready : Bool) (x y : Int) : Option HidReport :=
  if !ready then none
  else some (HidReport.mouse REPORT_ID_MOUSE 0x00 x y 0 0)

/-- Function `send_mouse_click` (main.c lines 105-109). -/
def send_mouse_click (ready : Bool) (buttons : Nat) : Option HidReport :=
  if !ready then none
  else some (HidReport.mouse REPORT_ID_MOUSE buttons 0 0 0 0)

/-- Function `send_mouse_release` (main.c lines 111-115). -/
def send_mouse_release (ready : Bool) : Option HidReport :=
  if !ready then none
  else some (HidReport.mouse REPORT_ID_MOUSE 0x00 0 0 0 0)

/-- The enum `app_state_t` (main.c lines 167-178). -/
inductive app_state_t
  | STATE_IDLE
  | STATE_WAIT_INIT
  | STATE_MOUSE_UP
  | STATE_MOUSE_DOWN
  | STATE_CLICK_PRESS
  | STATE_CLICK_RELEASE
  | STATE_WAIT_BEFORE_TYPE
  | STATE_TYPE_CHAR
  | STATE_RELEASE_CHAR
  | STATE_DONE
deriving DecidableEq

open app_state_t

/-- The mutable globals of the demo state machine: `app_state`,
`state_start_ms` (main.c lines 180-181), `text_index` (line 185) and the
static 10 ms accumulator `start_ms` of `hid_task` (line 190). -/
structure HidTaskState where
  app_state : app_state_t
  state_start_ms : Nat
  text_index : Nat
  start_ms : Nat
deriving DecidableEq

/-- The boot values of the globals. -/
def initState : HidTaskState :=
  { app_state := STATE_IDLE, state_start_ms := 0, text_index := 0, start_ms := 0 }

/-- One polling tick's inputs: `board_millis()` and the transport status
queries `tud_mounted()`, `tud_suspended()`, `tud_hid_ready()`. -/
structure TickInput where
  now : Nat
  mounted : Bool
  suspended : Bool
  hid_ready : Bool
deriving DecidableEq

/-- The text to type (main.c line 184). -/
def text_to_type : String := "Hello World!"

/-- The byte array backing `text_to_type`, including the terminating NUL. -/
def text_bytes : List Nat := (text_to_type.toList.map Char.toNat) ++ [0]

/-- Reading `text_to_type[i]` as a byte; indices past the buffer read 0 (the C code
never performs such a read, see the cursor invariant). -/
def text_byte (i : Nat) : Nat := text_bytes.getD i 0

/-- The character-to-(keycode, modifier) mapping computed inline in the
`STATE_TYPE_CHAR` branch (main.c lines 263-276). Returns `(key, modifier)`. -/
def char_to_key (c : Nat) : Nat × Nat :=
  if 97 ≤ c ∧ c ≤ 122 then (HID_KEY_A + (c - 97), 0)
  else if 65 ≤ c ∧ c ≤ 90 then (HID_KEY_A + (c - 65), KEYBOARD_MODIFIER_LEFTSHIFT)
  else if c = 32 then (HID_KEY_SPACE, 0)
  else if c = 33 then (HID_KEY_1, KEYBOARD_MODIFIER_LEFTSHIFT)
  else (0, 0)

/-- The `switch (app_state)` body of `hid_task` (main.c lines 211-293),
reached only with the transport ready, so the send helpers are invoked with
`ready = true`. `now` is the tick's `board_millis()` value. -/
def hid_switch (s : HidTaskState) (now : Nat) : HidTaskState × Option HidReport :=
  match s.app_state with
  | STATE_IDLE =>
      ({ s with state_start_ms := now % UINT32_MOD, app_state := STATE_WAIT_INIT }, none)
  | STATE_WAIT_INIT =>
      if usub32 now s.state_start_ms > 2000 then
        ({ s with app_state := STATE_WAIT_BEFORE_TYPE }, none)
      else (s, none)
  | STATE_MOUSE_UP =>
      match send_mouse_move true 0 (-20) with
      | some r => ({ s with app_state := STATE_MOUSE_DOWN }, some r)
      | none => (s, none)
  | STATE_MOUSE_DOWN =>
      match send_mouse_move true 0 20 with
      | some r => ({ s with app_state := STATE_CLICK_PRESS }, some r)
      | none => (s, none)
  | STATE_CLICK_PRESS =>
      match send_mouse_click true MOUSE_BUTTON_LEFT with
      | some r => ({ s with app_state := STATE_CLICK_RELEASE }, some r)
      | none => (s, none)
  | STATE_CLICK_RELEASE =>
      match send_mouse_release true with
      | some r =>
          ({ s with state_start_ms := now % UINT32_MOD,
                    app_state := STATE_WAIT_BEFORE_TYPE }, some r)
      | none => (s, none)
  | STATE_WAIT_BEFORE_TYPE =>
      if usub32 now s.state_start_ms > 500 then
        ({ s with text_index := 0, app_state := STATE_TYPE_CHAR }, none)
      else (s, none)
  | STATE_TYPE_CHAR =>
      let c := text_byte s.text_index
      if c = 0 then ({ s with app_state := STATE_DONE }, none)
      else
        let km := char_to_key c
        match send_key_press true km.2 km.1 with
        | some r => ({ s with app_state := STATE_RELEASE_CHAR }, some r)
        | none => (s, none)
  | STATE_RELEASE_CHAR =>
      match send_key_release true with
      | some r =>
          ({ s with text_index := s.text_index + 1, app_state := STATE_TYPE_CHAR }, some r)
      | none => (s, none)
  | STATE_DONE => (s, none)

/-- The guard clauses of `hid_task` after the 10 ms gate (main.c lines
196-209): not mounted forces `STATE_IDLE`; suspended issues a remote wakeup
request (no report) and returns; not ready returns without state change. -/
def hid_step (s : HidTaskState) (i : TickInput) : HidTaskState × Option HidReport :=
  if i.mounted = false then ({ s with app_state := STATE_IDLE }, none)
  else if i.suspended = true then (s, none)
  else if i.hid_ready = false then (s, none)
  else hid_switch s i.now

/-- Function `hid_task` (main.c lines 187-294): the 10 ms fixed-step gate
(`start_ms += interval_ms`, lines 192-194) followed by the guard clauses
and the state switch. -/
def hid_task (s : HidTaskState) (i : TickInput) : HidTaskState × Option HidReport :=
  if usub32 i.now s.start_ms < 10 then (s, none)
  else hid_step { s with start_ms := (s.start_ms + 10) % UINT32_MOD } i

/-- Iterate `hid_task` over a list of tick inputs, collecting the reports
handed to the transport in order. -/
def run : HidTaskState → List TickInput → HidTaskState × List HidReport
  | s, [] => (s, [])
  | s, i :: rest =>
      match hid_task s i with
      | (s1, none) => run s1 rest
      | (s1, some r) =>
          match run s1 rest with
          | (s2, rs) => (s2, r :: rs)

/-- A tick on which `hid_task` reaches the state switch: the 10 ms gate
passes and the device is mounted, not suspended, and the transport ready. -/
def EffTick (s : HidTaskState) (i : TickInput) : Prop :=
  i.mounted = true ∧ i.suspended = false ∧ i.hid_ready = true ∧
    10 ≤ usub32 i.now s.start_ms

instance (s : HidTaskState) (i : TickInput) : Decidable (EffTick s i) := by
  unfold EffTick; infer_instance

/-! ### Lifecycle monitor and host feedback handler -/

/-- The spec's ConnectionState: the transport's lifecycle state as seen by
the device. -/
inductive ConnState
  | unmounted
  | mounted
  | suspended
deriving DecidableEq

/-- Transport-delivered events that invoke the device callbacks. The
`setReport` payload carries `report_id`, `report_type` and the buffer bytes
(`bufsize` is the buffer length). -/
inductive UsbEvent
  | mount
  | umount
  | suspend (remote_wakeup_en : Bool)
  | resume
  | setReport (report_id report_type : Nat) (buffer : List Nat)
deriving DecidableEq

/-- The process-wide state the callbacks touch: `blink_interval_ms`
(main.c line 50), the LED level last written by `board_led_write`, the
transport's `tud_mounted()` flag, the spec-level ConnectionState, and the
demo state machine's globals (which no callback writes). -/
structure SysState where
  blink_interval_ms : Nat
  led_on : Bool
  mounted : Bool
  conn : ConnState
  seq : HidTaskState
deriving DecidableEq

/-- Callback `tud_mount_cb` (main.c line 141) together with the transport's own
transition to the mounted state. -/
def tud_mount_cb (s : SysState) : SysState :=
  { s with blink_interval_ms := BLINK_MOUNTED, mounted := true, conn := ConnState.mounted }

/-- Callback `tud_umount_cb` (main.c line 144) together with the transport's own
transition to the unmounted state. The callback body writes only
`blink_interval_ms`. -/
def tud_umount_cb (s : SysState) : SysState :=
  { s with blink_interval_ms := BLINK_NOT_MOUNTED, mounted := false,
           conn := ConnState.unmounted }

/-- Callback `tud_suspend_cb` (main.c lines 149-152); `remote_wakeup_en` is ignored. -/
def tud_suspend_cb (s : SysState) (remote_wakeup_en : Bool) : SysState :=
  { s with blink_interval_ms := BLINK_SUSPENDED, conn := ConnState.suspended }

/-- Callback `tud_resume_cb` (main.c lines 155-157): interval restored from
`tud_mounted()`; the transport leaves suspension. -/
def tud_resume_cb (s : SysState) : SysState :=
  { s with blink_interval_ms := if s.mounted then BLINK_MOUNTED else BLINK_NOT_MOUNTED,
           conn := if s.mounted then ConnState.mounted else ConnState.unmounted }

/-- Callback `tud_hid_set_report_cb` (main.c lines 319-344): on an OUTPUT report for
the keyboard report id, byte 0 is the LED bitmask; a zero-length buffer is
ignored; Capslock set disables blinking and drives the LED on; Capslock
clear drives the LED off and restores the mounted cadence. -/
def tud_hid_set_report_cb (s : SysState) (report_id report_type : Nat)
    (buffer : List Nat) : SysState :=
  if report_type = HID_REPORT_TYPE_OUTPUT then
    if report_id = REPORT_ID_KEYBOARD then
      match buffer with
      | [] => s
      | kbd_leds :: _ =>
          if kbd_leds &&& KEYBOARD_LED_CAPSLOCK ≠ 0 then
            { s with blink_interval_ms := 0, led_on := true }
          else
            { s with led_on := false, blink_interval_ms := BLINK_MOUNTED }
    else s
  else s

/-- Dispatch one transport event to the corresponding callback. -/
def lifecycle_step (s : SysState) (e : UsbEvent) : SysState :=
  match e with
  | UsbEvent.mount => tud_mount_cb s
  | UsbEvent.umount => tud_umount_cb s
  | UsbEvent.suspend en => tud_suspend_cb s en
  | UsbEvent.resume => tud_resume_cb s
  | UsbEvent.setReport rid rtype buf => tud_hid_set_report_cb s rid rtype buf

/-- The blink cadence the spec assigns to each ConnectionState. -/
def cadence : ConnState → Nat
  | ConnState.unmounted => BLINK_NOT_MOUNTED
  | ConnState.mounted => BLINK_MOUNTED
  | ConnState.suspended => BLINK_SUSPENDED

/-- The indicator-lock invariant: whenever the lock is not engaged (the
lock being engaged exactly when `blink_interval_ms = 0`, the value only the
Capslock branch produces), the interval is the cadence of the current
ConnectionState. -/
def IndicatorInv (s : SysState) : Prop :=
  s.blink_interval_ms ≠ 0 → s.blink_interval_ms = cadence s.conn

instance (s : SysState) : Decidable (IndicatorInv s) := by
  unfold IndicatorInv; infer_instance

/-- Environment assumption on one event: a SET_REPORT that actually reaches
the LED-handling branch (OUTPUT type, keyboard report id, non-empty
payload) is only delivered while the device is in the mounted
ConnectionState — a USB control transfer requires a configured,
non-suspended device. -/
def setReportGuard (s : SysState) (e : UsbEvent) : Prop :=
  match e with
  | UsbEvent.setReport rid rtype buf =>
      (rtype = HID_REPORT_TYPE_OUTPUT ∧ rid = REPORT_ID_KEYBOARD ∧ buf ≠ []) →
        s.conn = ConnState.mounted
  | _ => True

instance (s : SysState) (e : UsbEvent) : Decidable (setReportGuard s e) := by
  unfold setReportGuard
  cases e <;> infer_instance

/-- The statics of `led_blinking_task` (main.c lines 350-351). -/
structure LedTaskState where
  start_ms : Nat
  led_state : Bool
deriving DecidableEq

/-- Function `led_blinking_task` (main.c lines 349-364): returns the new statics and
`some level` when `board_led_write(level)` was performed. A zero interval
disables blinking entirely. -/
def led_blinking_task (blink_interval_ms : Nat) (now : Nat)
    (t : LedTaskState) : LedTaskState × Option Bool :=
  if blink_interval_ms = 0 then (t, none)
  else if usub32 now t.start_ms < blink_interval_ms then (t, none)
  else ({ start_ms := (t.start_ms + blink_interval_ms) % UINT32_MOD,
          led_state := !t.led_state }, some t.led_state)

/-! ### The typing loop, abstracted from timing

In `STATE_TYPE_CHAR`, `STATE_RELEASE_CHAR` and `STATE_DONE` the switch body
reads neither `board_millis()` nor `state_start_ms`, so on these states the
behaviour of an effective tick is a pure function of `(app_state,
text_index)`. -/

/-- States of the typing loop (including its terminal state). -/
def inLoop (a : app_state_t) : Prop :=
  a = STATE_TYPE_CHAR ∨ a = STATE_RELEASE_CHAR ∨ a = STATE_DONE

instance (a : app_state_t) : Decidable (inLoop a) := by
  unfold inLoop; infer_instance

/-- One effective tick of the typing loop, as a pure function of the state
and cursor. -/
def loopStep (a : app_state_t) (idx : Nat) :
    (app_state_t × Nat) × Option HidReport :=
  match a with
  | STATE_TYPE_CHAR =>
      let c := text_byte idx
      if c = 0 then ((STATE_DONE, idx), none)
      else
        let km := char_to_key c
        ((STATE_RELEASE_CHAR, idx), send_key_press true km.2 km.1)
  | STATE_RELEASE_CHAR => ((STATE_TYPE_CHAR, idx + 1), send_key_release true)
  | a => ((a, idx), none)

/-- The reports the typing loop emits over `n` effective ticks. -/
def loopRun (a : app_state_t) (idx : Nat) : Nat → List HidReport
  | 0 => []
  | Nat.succ n =>
      match loopStep a idx with
      | ((a1, idx1), r) => r.toList ++ loopRun a1 idx1 n

/-- The number of effective ticks in an input list: ticks that pass the
10 ms gate (whose accumulator `start_ms` advances by 10 per passing tick)
with the transport ready. -/
def effCount (start_ms : Nat) : List TickInput → Nat
  | [] => 0
  | i :: rest =>
      if usub32 i.now start_ms < 10 then effCount start_ms rest
      else (if i.hid_ready then 1 else 0) + effCount ((start_ms + 10) % UINT32_MOD) rest

/-- The cursor invariant: the text cursor never exceeds the length of
"Hello World!" (12, the index of the terminating NUL), and while a release
is pending the cursor is strictly inside the text. -/
def SeqInv (s : HidTaskState) : Prop :=
  s.text_index ≤ 12 ∧ (s.app_state = STATE_RELEASE_CHAR → s.text_index < 12)

instance (s : HidTaskState) : Decidable (SeqInv s) := by
  unfold SeqInv; infer_instance

/-! ### Helper lemmas -/

lemma usub32_eq_sub {a b : Nat} (hb : b ≤ a) (ha : a < UINT32_MOD) :
    usub32 a b = a - b := by
  have hb' : b < UINT32_MOD := lt_of_le_of_lt hb ha
  unfold usub32
  rw [Nat.mod_eq_of_lt ha, Nat.mod_eq_of_lt hb']
  have h1 : a + (UINT32_MOD - b) = (a - b) + UINT32_MOD := by omega
  rw [h1, Nat.add_mod_right, Nat.mod_eq_of_lt (by omega)]

lemma hid_task_stall {s : HidTaskState} {i : TickInput}
    (h : usub32 i.now s.start_ms < 10) : hid_task s i = (s, none) := by
  unfold hid_task; rw [if_pos h]

lemma hid_task_fires {s : HidTaskState} {i : TickInput}
    (h : ¬ usub32 i.now s.start_ms < 10) :
    hid_task s i = hid_step { s with start_ms := (s.start_ms + 10) % UINT32_MOD } i := by
  unfold hid_task; rw [if_neg h]

lemma hid_step_unmounted {s : HidTaskState} {i : TickInput}
    (hm : i.mounted = false) :
    hid_step s i = ({ s with app_state := STATE_IDLE }, none) := by
  unfold hid_step; rw [hm]; simp

lemma hid_step_suspended {s : HidTaskState} {i : TickInput}
    (hm : i.mounted = true) (hs : i.suspended = true) :
    hid_step s i = (s, none) := by
  unfold hid_step; rw [hm, hs]; simp

lemma hid_step_not_ready {s : HidTaskState} {i : TickInput}
    (hm : i.mounted = true) (hs : i.suspended = false) (hr : i.hid_ready = false) :
    hid_step s i = (s, none) := by
  unfold hid_step; rw [hm, hs, hr]; simp

lemma hid_step_eff {s : HidTaskState} {i : TickInput}
    (hm : i.mounted = true) (hs : i.suspended = false) (hr : i.hid_ready = true) :
    hid_step s i = hid_switch s i.now := by
  unfold hid_step; rw [hm, hs, hr]; simp

lemma hid_task_eff {s : HidTaskState} {i : TickInput} (h : EffTick s i) :
    hid_task s i =
      hid_switch { s with start_ms := (s.start_ms + 10) % UINT32_MOD } i.now := by
  obtain ⟨hm, hs, hr, hg⟩ := h
  rw [hid_task_fires (by omega), hid_step_eff hm hs hr]

lemma hid_switch_idle {s : HidTaskState} {now : Nat} (ha : s.app_state = STATE_IDLE) :
    hid_switch s now =
      ({ s with state_start_ms := now % UINT32_MOD, app_state := STATE_WAIT_INIT }, none) := by
  unfold hid_switch; rw [ha]

lemma hid_switch_wait_init_fire {s : HidTaskState} {now : Nat}
    (ha : s.app_state = STATE_WAIT_INIT) (ht : 2000 < usub32 now s.state_start_ms) :
    hid_switch s now = ({ s with app_state := STATE_WAIT_BEFORE_TYPE }, none) := by
  unfold hid_switch; rw [ha]; simp [ht]

lemma hid_switch_wait_init_hold {s : HidTaskState} {now : Nat}
    (ha : s.app_state = STATE_WAIT_INIT) (ht : ¬ 2000 < usub32 now s.state_start_ms) :
    hid_switch s now = (s, none) := by
  unfold hid_switch; rw [ha]; simp [ht]

lemma hid_switch_mouse_up {s : HidTaskState} {now : Nat}
    (ha : s.app_state = STATE_MOUSE_UP) :
    hid_switch s now =
      ({ s with app_state := STATE_MOUSE_DOWN },
       some (HidReport.mouse REPORT_ID_MOUSE 0 0 (-20) 0 0)) := by
  unfold hid_switch; rw [ha]; simp [send_mouse_move]

lemma hid_switch_mouse_down {s : HidTaskState} {now : Nat}
    (ha : s.app_state = STATE_MOUSE_DOWN) :
    hid_switch s now =
      ({ s with app_state := STATE_CLICK_PRESS },
       some (HidReport.mouse REPORT_ID_MOUSE 0 0 20 0 0)) := by
  unfold hid_switch; rw [ha]; simp [send_mouse_move]

lemma hid_switch_click_press {s : HidTaskState} {now : Nat}
    (ha : s.app_state = STATE_CLICK_PRESS) :
    hid_switch s now =
      ({ s with app_state := STATE_CLICK_RELEASE },
       some (HidReport.mouse REPORT_ID_MOUSE MOUSE_BUTTON_LEFT 0 0 0 0)) := by
  unfold hid_switch; rw [ha]; simp [send_mouse_click]

lemma hid_switch_click_release {s : HidTaskState} {now : Nat}
    (ha : s.app_state = STATE_CLICK_RELEASE) :
    hid_switch s now =
      ({ s with state_start_ms := now % UINT32_MOD, app_state := STATE_WAIT_BEFORE_TYPE },
       some (HidReport.mouse REPORT_ID_MOUSE 0 0 0 0 0)) := by
  unfold hid_switch; rw [ha]; simp [send_mouse_release]

lemma hid_switch_wait_before_type_fire {s : HidTaskState} {now : Nat}
    (ha : s.app_state = STATE_WAIT_BEFORE_TYPE) (ht : 500 < usub32 now s.state_start_ms) :
    hid_switch s now = ({ s with text_index := 0, app_state := STATE_TYPE_CHAR }, none) := by
  unfold hid_switch; rw [ha]; simp [ht]

lemma hid_switch_wait_before_type_hold {s : HidTaskState} {now : Nat}
    (ha : s.app_state = STATE_WAIT_BEFORE_TYPE) (ht : ¬ 500 < usub32 now s.state_start_ms) :
    hid_switch s now = (s, none) := by
  unfold hid_switch; rw [ha]; simp [ht]

lemma hid_switch_type_char_nul {s : HidTaskState} {now : Nat}
    (ha : s.app_state = STATE_TYPE_CHAR) (hz : text_byte s.text_index = 0) :
    hid_switch s now = ({ s with app_state := STATE_DONE }, none) := by
  unfold hid_switch; rw [ha]; simp [hz]

lemma hid_switch_type_char_press {s : HidTaskState} {now : Nat}
    (ha : s.app_state = STATE_TYPE_CHAR) (hz : text_byte s.text_index ≠ 0) :
    hid_switch s now =
      ({ s with app_state := STATE_RELEASE_CHAR },
       some (HidReport.keyboard REPORT_ID_KEYBOARD (char_to_key (text_byte s.text_index)).2
         [(char_to_key (text_byte s.text_index)).1, 0, 0, 0, 0, 0])) := by
  unfold hid_switch; rw [ha]
  simp [hz, send_key_press, send_keyboard_report, tud_hid_keyboard_report]

lemma hid_switch_release_char {s : HidTaskState} {now : Nat}
    (ha : s.app_state = STATE_RELEASE_CHAR) :
    hid_switch s now =
      ({ s with text_index := s.text_index + 1, app_state := STATE_TYPE_CHAR },
       some (HidReport.keyboard REPORT_ID_KEYBOARD 0 [0, 0, 0, 0, 0, 0])) := by
  unfold hid_switch; rw [ha]
  simp [send_key_release, tud_hid_keyboard_report]

lemma hid_switch_done {s : HidTaskState} {now : Nat} (ha : s.app_state = STATE_DONE) :
    hid_switch s now = (s, none) := by
  unfold hid_switch; rw [ha]

lemma run_cons_none {s s1 : HidTaskState} {i : TickInput} {rest : List TickInput}
    (h : hid_task s i = (s1, none)) : run s (i :: rest) = run s1 rest := by
  simp only [run]; rw [h]

lemma run_cons_some {s s1 : HidTaskState} {i : TickInput} {rest : List TickInput}
    {r : HidReport} (h : hid_task s i = (s1, some r)) :
    run s (i :: rest) = ((run s1 rest).1, r :: (run s1 rest).2) := by
  simp only [run]; rw [h]

lemma run_fst_cons {s : HidTaskState} {i : TickInput} {rest : List TickInput} :
    (run s (i :: rest)).1 = (run (hid_task s i).1 rest).1 := by
  rcases h : hid_task s i with ⟨s1, r⟩
  cases r with
  | none => rw [run_cons_none h]
  | some r => rw [run_cons_some h]

lemma text_byte_eq_zero {n : Nat} (h : 12 ≤ n) : text_byte n = 0 := by
  rcases Nat.lt_or_ge n 13 with h13 | h13
  · have : n = 12 := by omega
    subst this; decide
  · have hlen : text_bytes.length = 13 := by decide
    unfold text_byte
    exact List.getD_eq_default _ _ (by omega)

/-! ### Claim C7 -/

/-- C7 (counterexample): the claim says every send helper, `send_key_release`
included, checks transport readiness and hands no payload to the transport
when it is not ready. But `send_key_release` contains no readiness check: at
`ready = false` it still hands the all-zero keyboard report to
`tud_hid_keyboard_report`, refuting the claim. -/
theorem c7_counterexample :
    send_key_release false =
      some (HidReport.keyboard REPORT_ID_KEYBOARD 0 [0, 0, 0, 0, 0, 0]) := rfl

/-- C7 (amended): `send_keyboard_report`, `send_key_press`,
`send_mouse_move`, `send_mouse_click` and `send_mouse_release` check
transport readiness first and, when it is not ready, return `false`
immediately with no payload handed to the transport; `send_key_release`
alone performs no readiness check and forwards the all-zero keyboard report
unconditionally (in `hid_task` it is only reached behind the tick-level
readiness gate). -/
theorem c7_readiness_gate :
    (∀ (report_id modifier : Nat) (keycode : List Nat),
        send_keyboard_report false report_id modifier keycode = none)
    ∧ (∀ (modifier key_code : Nat), send_key_press false modifier key_code = none)
    ∧ (∀ (x y : Int), send_mouse_move false x y = none)
    ∧ (∀ (buttons : Nat), send_mouse_click false buttons = none)
    ∧ send_mouse_release false = none
    ∧ send_key_release false =
        some (HidReport.keyboard REPORT_ID_KEYBOARD 0 [0, 0, 0, 0, 0, 0]) :=
  ⟨fun _ _ _ => rfl, fun _ _ => rfl, fun _ _ => rfl, fun _ => rfl, rfl, rfl⟩

/-! ### Claim C2 -/

/-- C2 (counterexample): the claim quantifies over every tick on which
transport readiness is false. Two such ticks refute it: (1) a tick with the
device unmounted (so `tud_hid_ready()` is false) changes SequencerState from
`STATE_DONE` to `STATE_IDLE`; (2) a mounted not-ready tick that passes the
10 ms gate advances the `start_ms` accumulator of `hid_task`, so not every
timer is unchanged. -/
theorem c2_counterexample :
    (hid_task { app_state := STATE_DONE, state_start_ms := 0, text_index := 12, start_ms := 0 }
        { now := 10, mounted := false, suspended := false, hid_ready := false }).1.app_state
      ≠ STATE_DONE
    ∧ (hid_task { app_state := STATE_TYPE_CHAR, state_start_ms := 0, text_index := 0, start_ms := 0 }
        { now := 10, mounted := true, suspended := false, hid_ready := false }).1.start_ms
      ≠ 0 := by decide

/-- C2 (amended): on every `hid_task` tick on which the device is mounted,
not suspended, and transport readiness is false, the SequencerState, the
text cursor and the state timer anchor `state_start_ms` are unchanged and no
HID report is sent; only the 10 ms poll accumulator `start_ms` may advance
(by exactly one interval, when the tick fires). -/
theorem c2_not_ready_stall (s : HidTaskState) (i : TickInput)
    (hm : i.mounted = true) (hs : i.suspended = false) (hr : i.hid_ready = false) :
    (hid_task s i).1.app_state = s.app_state
    ∧ (hid_task s i).1.text_index = s.text_index
    ∧ (hid_task s i).1.state_start_ms = s.state_start_ms
    ∧ (hid_task s i).2 = none := by
  by_cases hg : usub32 i.now s.start_ms < 10
  · rw [hid_task_stall hg]
    exact ⟨rfl, rfl, rfl, rfl⟩
  · rw [hid_task_fires hg, hid_step_not_ready hm hs hr]
    exact ⟨rfl, rfl, rfl, rfl⟩

/-- Witness for the amended C2 theorem at a concrete mounted, not-suspended,
not-ready tick. -/
theorem c2_witness :
    (hid_task { app_state := STATE_TYPE_CHAR, state_start_ms := 20, text_index := 3, start_ms := 0 }
        { now := 10, mounted := true, suspended := false, hid_ready := false }).1.app_state
      = ({ app_state := STATE_TYPE_CHAR, state_start_ms := 20, text_index := 3, start_ms := 0 } : HidTaskState).app_state
    ∧ (hid_task { app_state := STATE_TYPE_CHAR, state_start_ms := 20, text_index := 3, start_ms := 0 }
        { now := 10, mounted := true, suspended := false, hid_ready := false }).1.text_index
      = ({ app_state := STATE_TYPE_CHAR, state_start_ms := 20, text_index := 3, start_ms := 0 } : HidTaskState).text_index
    ∧ (hid_task { app_state := STATE_TYPE_CHAR, state_start_ms := 20, text_index := 3, start_ms := 0 }
        { now := 10, mounted := true, suspended := false, hid_ready := false }).1.state_start_ms
      = ({ app_state := STATE_TYPE_CHAR, state_start_ms := 20, text_index := 3, start_ms := 0 } : HidTaskState).state_start_ms
    ∧ (hid_task { app_state := STATE_TYPE_CHAR, state_start_ms := 20, text_index := 3, start_ms := 0 }
        { now := 10, mounted := true, suspended := false, hid_ready := false }).2 = none :=
  c2_not_ready_stall
    { app_state := STATE_TYPE_CHAR, state_start_ms := 20, text_index := 3, start_ms := 0 }
    { now := 10, mounted := true, suspended := false, hid_ready := false } rfl rfl rfl

/-! ### Claim C3 -/

/-- C3 (counterexample): the claim says the unmount handler signals the
sequencer so that SequencerState becomes Idle on every unmount event. But
`tud_umount_cb` writes only `blink_interval_ms`: after an unmount event
delivered with the sequencer in `STATE_DONE`, the sequencer is still in
`STATE_DONE`, not `STATE_IDLE`. -/
theorem c3_counterexample :
    (tud_umount_cb
        { blink_interval_ms := BLINK_MOUNTED, led_on := false, mounted := true,
          conn := ConnState.mounted,
          seq := { app_state := STATE_DONE, state_start_ms := 0, text_index := 12,
                   start_ms := 0 } }).seq.app_state
      ≠ STATE_IDLE := by decide

/-- C3 (amended): the unmount handler itself does not touch the sequencer —
it only selects the unmounted blink cadence (and the transport drops its
mounted flag). The reset to Idle instead happens in `hid_task`: on every
tick that passes the 10 ms gate while the device is unmounted, regardless of
the prior state (including `STATE_DONE`), SequencerState is forced to
`STATE_IDLE` and no report is sent, so a fresh connection restarts the
script provided the device stays unmounted until the next firing tick. -/
theorem c3_unmount_reset :
    (∀ s : SysState,
        (tud_umount_cb s).seq = s.seq
        ∧ (tud_umount_cb s).blink_interval_ms = BLINK_NOT_MOUNTED
        ∧ (tud_umount_cb s).mounted = false)
    ∧ (∀ (s : HidTaskState) (i : TickInput), i.mounted = false →
        10 ≤ usub32 i.now s.start_ms →
        (hid_task s i).1.app_state = STATE_IDLE ∧ (hid_task s i).2 = none) := by
  constructor
  · intro s; exact ⟨rfl, rfl, rfl⟩
  · intro s i hm hg
    rw [hid_task_fires (by omega), hid_step_unmounted hm]
    exact ⟨rfl, rfl⟩

/-- Witness for the amended C3 theorem: a concrete unmounted firing tick
from `STATE_DONE` lands in `STATE_IDLE`. -/
theorem c3_witness :
    (hid_task { app_state := STATE_DONE, state_start_ms := 0, text_index := 12, start_ms := 0 }
        { now := 10, mounted := false, suspended := false, hid_ready := false }).1.app_state
      = STATE_IDLE
    ∧ (hid_task { app_state := STATE_DONE, state_start_ms := 0, text_index := 12, start_ms := 0 }
        { now := 10, mounted := false, suspended := false, hid_ready := false }).2 = none :=
  c3_unmount_reset.2
    { app_state := STATE_DONE, state_start_ms := 0, text_index := 12, start_ms := 0 }
    { now := 10, mounted := false, suspended := false, hid_ready := false } rfl (by decide)

/-! ### Claim C5 -/

/-- C5 (counterexample): the claim says the anchor is (re)captured whenever
`STATE_WAIT_BEFORE_TYPE` is entered, also from `STATE_WAIT_INIT`, and that
the transition to `STATE_TYPE_CHAR` fires only after 500 ms in the state.
But the `STATE_WAIT_INIT` branch does not recapture `state_start_ms`: in the
run below the machine enters `STATE_WAIT_BEFORE_TYPE` at time 2020 with the
anchor still at 10 (captured on leaving Idle), and the very next tick, at
time 2030 — 10 ms after entry — already fires the transition to
`STATE_TYPE_CHAR`. -/
theorem c5_counterexample :
    (hid_task { app_state := STATE_WAIT_INIT, state_start_ms := 10, text_index := 0, start_ms := 2010 }
        { now := 2020, mounted := true, suspended := false, hid_ready := true }).1
      = { app_state := STATE_WAIT_BEFORE_TYPE, state_start_ms := 10, text_index := 0,
          start_ms := 2020 }
    ∧ (hid_task { app_state := STATE_WAIT_BEFORE_TYPE, state_start_ms := 10, text_index := 0, start_ms := 2020 }
        { now := 2030, mounted := true, suspended := false, hid_ready := true }).1.app_state
      = STATE_TYPE_CHAR := by decide

/-- C5 (amended): the elapsed-time anchor `state_start_ms` is captured on
leaving `STATE_IDLE` and recaptured on the `STATE_CLICK_RELEASE` →
`STATE_WAIT_BEFORE_TYPE` transition, but the `STATE_WAIT_INIT` →
`STATE_WAIT_BEFORE_TYPE` transition does not recapture it; the
`STATE_WAIT_BEFORE_TYPE` → `STATE_TYPE_CHAR` transition fires exactly when
more than 500 ms have elapsed since the anchor — measured from entry when
coming from `STATE_CLICK_RELEASE`, but from the Idle-exit capture when
coming from `STATE_WAIT_INIT` (where, 2000 ms having already elapsed, it
passes on the first eligible tick). -/
theorem c5_timer_anchors (s : HidTaskState) (i : TickInput) (heff : EffTick s i) :
    (s.app_state = STATE_IDLE →
        (hid_task s i).1.state_start_ms = i.now % UINT32_MOD
        ∧ (hid_task s i).1.app_state = STATE_WAIT_INIT)
    ∧ (s.app_state = STATE_CLICK_RELEASE →
        (hid_task s i).1.state_start_ms = i.now % UINT32_MOD
        ∧ (hid_task s i).1.app_state = STATE_WAIT_BEFORE_TYPE)
    ∧ (s.app_state = STATE_WAIT_INIT →
        (hid_task s i).1.state_start_ms = s.state_start_ms)
    ∧ (s.app_state = STATE_WAIT_BEFORE_TYPE →
        ((hid_task s i).1.app_state = STATE_TYPE_CHAR
          ↔ 500 < usub32 i.now s.state_start_ms)) := by
  rw [hid_task_eff heff]
  refine ⟨?_, ?_, ?_, ?_⟩
  · intro ha
    rw [hid_switch_idle (by simpa using ha)]
    exact ⟨rfl, rfl⟩
  · intro ha
    rw [hid_switch_click_release (by simpa using ha)]
    exact ⟨rfl, rfl⟩
  · intro ha
    by_cases ht : 2000 < usub32 i.now s.state_start_ms
    · rw [hid_switch_wait_init_fire (by simpa using ha) (by simpa using ht)]
    · rw [hid_switch_wait_init_hold (by simpa using ha) (by simpa using ht)]
  · intro ha
    by_cases ht : 500 < usub32 i.now s.state_start_ms
    · rw [hid_switch_wait_before_type_fire (by simpa using ha) (by simpa using ht)]
      simpa using ht
    · rw [hid_switch_wait_before_type_hold (by simpa using ha) (by simpa using ht)]
      simp only [ha]
      constructor
      · intro hcontra
        exact absurd hcontra (by simp)
      · intro hcontra
        exact absurd hcontra ht

/-- Witness for the amended C5 theorem at a concrete effective tick in
`STATE_CLICK_RELEASE`. -/
theorem c5_witness :
    (({ app_state := STATE_CLICK_RELEASE, state_start_ms := 0, text_index := 0, start_ms := 0 } : HidTaskState).app_state = STATE_IDLE →
        (hid_task { app_state := STATE_CLICK_RELEASE, state_start_ms := 0, text_index := 0, start_ms := 0 }
            { now := 10, mounted := true, suspended := false, hid_ready := true }).1.state_start_ms = 10 % UINT32_MOD
        ∧ (hid_task { app_state := STATE_CLICK_RELEASE, state_start_ms := 0, text_index := 0, start_ms := 0 }
            { now := 10, mounted := true, suspended := false, hid_ready := true }).1.app_state = STATE_WAIT_INIT)
    ∧ (({ app_state := STATE_CLICK_RELEASE, state_start_ms := 0, text_index := 0, start_ms := 0 } : HidTaskState).app_state = STATE_CLICK_RELEASE →
        (hid_task { app_state := STATE_CLICK_RELEASE, state_start_ms := 0, text_index := 0, start_ms := 0 }
            { now := 10, mounted := true, suspended := false, hid_ready := true }).1.state_start_ms = 10 % UINT32_MOD
        ∧ (hid_task { app_state := STATE_CLICK_RELEASE, state_start_ms := 0, text_index := 0, start_ms := 0 }
            { now := 10, mounted := true, suspended := false, hid_ready := true }).1.app_state = STATE_WAIT_BEFORE_TYPE)
    ∧ (({ app_state := STATE_CLICK_RELEASE, state_start_ms := 0, text_index := 0, start_ms := 0 } : HidTaskState).app_state = STATE_WAIT_INIT →
        (hid_task { app_state := STATE_CLICK_RELEASE, state_start_ms := 0, text_index := 0, start_ms := 0 }
            { now := 10, mounted := true, suspended := false, hid_ready := true }).1.state_start_ms
          = ({ app_state := STATE_CLICK_RELEASE, state_start_ms := 0, text_index := 0, start_ms := 0 } : HidTaskState).state_start_ms)
    ∧ (({ app_state := STATE_CLICK_RELEASE, state_start_ms := 0, text_index := 0, start_ms := 0 } : HidTaskState).app_state = STATE_WAIT_BEFORE_TYPE →
        ((hid_task { app_state := STATE_CLICK_RELEASE, state_start_ms := 0, text_index := 0, start_ms := 0 }
            { now := 10, mounted := true, suspended := false, hid_ready := true }).1.app_state = STATE_TYPE_CHAR
          ↔ 500 < usub32 10 ({ app_state := STATE_CLICK_RELEASE, state_start_ms := 0, text_index := 0, start_ms := 0 } : HidTaskState).state_start_ms)) :=
  c5_timer_anchors
    { app_state := STATE_CLICK_RELEASE, state_start_ms := 0, text_index := 0, start_ms := 0 }
    { now := 10, mounted := true, suspended := false, hid_ready := true } (by decide)

/-! ### Claim C6 -/

/-- C6: on every effective tick (mounted, not suspended, ready, past the
10 ms gate) in `STATE_WAIT_INIT`, with the clock within one `uint32_t` era
of the anchor, the transition to `STATE_WAIT_BEFORE_TYPE` fires exactly when
strictly more than 2000 ms have elapsed since the anchor captured on leaving
`STATE_IDLE`; otherwise the state stays `STATE_WAIT_INIT`. In particular at
1999 and 2000 ms elapsed it does not fire and at 2001 ms it fires (see the
witness). -/
theorem c6_wait_init_boundary (s : HidTaskState) (i : TickInput)
    (heff : EffTick s i) (ha : s.app_state = STATE_WAIT_INIT)
    (hnw : i.now < UINT32_MOD) (hanchor : s.state_start_ms ≤ i.now) :
    ((hid_task s i).1.app_state = STATE_WAIT_BEFORE_TYPE
       ↔ 2000 < i.now - s.state_start_ms)
    ∧ ((hid_task s i).1.app_state = STATE_WAIT_INIT
       ↔ i.now - s.state_start_ms ≤ 2000) := by
  rw [hid_task_eff heff]
  have helapsed : usub32 i.now s.state_start_ms = i.now - s.state_start_ms :=
    usub32_eq_sub hanchor hnw
  by_cases ht : 2000 < i.now - s.state_start_ms
  · rw [hid_switch_wait_init_fire (by simpa using ha) (by simpa [helapsed] using ht)]
    constructor <;> simp [ha] <;> omega
  · rw [hid_switch_wait_init_hold (by simpa using ha) (by simpa [helapsed] using ht)]
    constructor <;> simp [ha] <;> omega

/-- Witness for C6: the boundary behaviour at 1999, 2000 and 2001 ms of
elapsed time since the anchor (anchor 10; clock 2009, 2010, 2011). -/
theorem c6_witness :
    (((hid_task { app_state := STATE_WAIT_INIT, state_start_ms := 10, text_index := 0, start_ms := 0 }
          { now := 2009, mounted := true, suspended := false, hid_ready := true }).1.app_state = STATE_WAIT_BEFORE_TYPE
        ↔ 2000 < 2009 - 10)
      ∧ ((hid_task { app_state := STATE_WAIT_INIT, state_start_ms := 10, text_index := 0, start_ms := 0 }
          { now := 2009, mounted := true, suspended := false, hid_ready := true }).1.app_state = STATE_WAIT_INIT
        ↔ 2009 - 10 ≤ 2000))
    ∧ (((hid_task { app_state := STATE_WAIT_INIT, state_start_ms := 10, text_index := 0, start_ms := 0 }
          { now := 2010, mounted := true, suspended := false, hid_ready := true }).1.app_state = STATE_WAIT_BEFORE_TYPE
        ↔ 2000 < 2010 - 10)
      ∧ ((hid_task { app_state := STATE_WAIT_INIT, state_start_ms := 10, text_index := 0, start_ms := 0 }
          { now := 2010, mounted := true, suspended := false, hid_ready := true }).1.app_state = STATE_WAIT_INIT
        ↔ 2010 - 10 ≤ 2000))
    ∧ (((hid_task { app_state := STATE_WAIT_INIT, state_start_ms := 10, text_index := 0, start_ms := 0 }
          { now := 2011, mounted := true, suspended := false, hid_ready := true }).1.app_state = STATE_WAIT_BEFORE_TYPE
        ↔ 2000 < 2011 - 10)
      ∧ ((hid_task { app_state := STATE_WAIT_INIT, state_start_ms := 10, text_index := 0, start_ms := 0 }
          { now := 2011, mounted := true, suspended := false, hid_ready := true }).1.app_state = STATE_WAIT_INIT
        ↔ 2011 - 10 ≤ 2000)) :=
  ⟨c6_wait_init_boundary
      { app_state := STATE_WAIT_INIT, state_start_ms := 10, text_index := 0, start_ms := 0 }
      { now := 2009, mounted := true, suspended := false, hid_ready := true }
      (by decide) rfl (by decide) (by decide),
   c6_wait_init_boundary
      { app_state := STATE_WAIT_INIT, state_start_ms := 10, text_index := 0, start_ms := 0 }
      { now := 2010, mounted := true, suspended := false, hid_ready := true }
      (by decide) rfl (by decide) (by decide),
   c6_wait_init_boundary
      { app_state := STATE_WAIT_INIT, state_start_ms := 10, text_index := 0, start_ms := 0 }
      { now := 2011, mounted := true, suspended := false, hid_ready := true }
      (by decide) rfl (by decide) (by decide)⟩

/-! ### Claim C8 -/

/-- C8: on every effective tick in `STATE_TYPE_CHAR` with current character
`c = text_to_type[text_index]`, the report sent is: for a lowercase letter,
keycode `HID_KEY_A + (c - 'a')` with no modifier; for an uppercase letter,
keycode `HID_KEY_A + (c - 'A')` with the left-shift modifier; for `' '`, the
dedicated space key with no modifier; for `'!'`, the "1" key with left-shift;
and for any other non-NUL character, keycode 0 with no modifier (a no-op
key, not an error). -/
theorem c8_char_mapping (s : HidTaskState) (i : TickInput) (heff : EffTick s i)
    (ha : s.app_state = STATE_TYPE_CHAR) (c : Nat) (hc : c = text_byte s.text_index) :
    (97 ≤ c ∧ c ≤ 122 →
        (hid_task s i).2 = some (HidReport.keyboard REPORT_ID_KEYBOARD 0
          [HID_KEY_A + (c - 97), 0, 0, 0, 0, 0]))
    ∧ (65 ≤ c ∧ c ≤ 90 →
        (hid_task s i).2 = some (HidReport.keyboard REPORT_ID_KEYBOARD
          KEYBOARD_MODIFIER_LEFTSHIFT [HID_KEY_A + (c - 65), 0, 0, 0, 0, 0]))
    ∧ (c = 32 →
        (hid_task s i).2 = some (HidReport.keyboard REPORT_ID_KEYBOARD 0
          [HID_KEY_SPACE, 0, 0, 0, 0, 0]))
    ∧ (c = 33 →
        (hid_task s i).2 = some (HidReport.keyboard REPORT_ID_KEYBOARD
          KEYBOARD_MODIFIER_LEFTSHIFT [HID_KEY_1, 0, 0, 0, 0, 0]))
    ∧ (c ≠ 0 → ¬(97 ≤ c ∧ c ≤ 122) → ¬(65 ≤ c ∧ c ≤ 90) → c ≠ 32 → c ≠ 33 →
        (hid_task s i).2 = some (HidReport.keyboard REPORT_ID_KEYBOARD 0
          [0, 0, 0, 0, 0, 0])) := by
  rw [hid_task_eff heff]
  refine ⟨?_, ?_, ?_, ?_, ?_⟩
  · rintro ⟨h1, h2⟩
    rw [hid_switch_type_char_press (by simpa using ha) (by simp [← hc]; omega)]
    simp [← hc, char_to_key, h1, h2]
  · rintro ⟨h1, h2⟩
    rw [hid_switch_type_char_press (by simpa using ha) (by simp [← hc]; omega)]
    have hnl : ¬(97 ≤ c ∧ c ≤ 122) := by omega
    simp [← hc, char_to_key, hnl, h1, h2]
  · intro h1
    rw [hid_switch_type_char_press (by simpa using ha) (by simp [← hc]; omega)]
    simp [← hc, char_to_key, h1]
  · intro h1
    rw [hid_switch_type_char_press (by simpa using ha) (by simp [← hc]; omega)]
    simp [← hc, char_to_key, h1]
  · intro h0 h1 h2 h3 h4
    rw [hid_switch_type_char_press (by simpa using ha) (by simp [← hc]; omega)]
    simp [← hc, char_to_key, h1, h2, h3, h4]

/-- Witness for C8 at the first character of the script: `text_byte 0 = 72`
(`'H'`), an uppercase letter, typed as shift + `HID_KEY_A + 7`. -/
theorem c8_witness :
    (97 ≤ 72 ∧ 72 ≤ 122 →
        (hid_task { app_state := STATE_TYPE_CHAR, state_start_ms := 0, text_index := 0, start_ms := 0 }
            { now := 10, mounted := true, suspended := false, hid_ready := true }).2
          = some (HidReport.keyboard REPORT_ID_KEYBOARD 0
              [HID_KEY_A + (72 - 97), 0, 0, 0, 0, 0]))
    ∧ (65 ≤ 72 ∧ 72 ≤ 90 →
        (hid_task { app_state := STATE_TYPE_CHAR, state_start_ms := 0, text_index := 0, start_ms := 0 }
            { now := 10, mounted := true, suspended := false, hid_ready := true }).2
          = some (HidReport.keyboard REPORT_ID_KEYBOARD KEYBOARD_MODIFIER_LEFTSHIFT
              [HID_KEY_A + (72 - 65), 0, 0, 0, 0, 0]))
    ∧ (72 = 32 →
        (hid_task { app_state := STATE_TYPE_CHAR, state_start_ms := 0, text_index := 0, start_ms := 0 }
            { now := 10, mounted := true, suspended := false, hid_ready := true }).2
          = some (HidReport.keyboard REPORT_ID_KEYBOARD 0 [HID_KEY_SPACE, 0, 0, 0, 0, 0]))
    ∧ (72 = 33 →
        (hid_task { app_state := STATE_TYPE_CHAR, state_start_ms := 0, text_index := 0, start_ms := 0 }
            { now := 10, mounted := true, suspended := false, hid_ready := true }).2
          = some (HidReport.keyboard REPORT_ID_KEYBOARD KEYBOARD_MODIFIER_LEFTSHIFT
              [HID_KEY_1, 0, 0, 0, 0, 0]))
    ∧ (72 ≠ 0 → ¬(97 ≤ 72 ∧ 72 ≤ 122) → ¬(65 ≤ 72 ∧ 72 ≤ 90) → 72 ≠ 32 → 72 ≠ 33 →
        (hid_task { app_state := STATE_TYPE_CHAR, state_start_ms := 0, text_index := 0, start_ms := 0 }
            { now := 10, mounted := true, suspended := false, hid_ready := true }).2
          = some (HidReport.keyboard REPORT_ID_KEYBOARD 0 [0, 0, 0, 0, 0, 0])) :=
  c8_char_mapping
    { app_state := STATE_TYPE_CHAR, state_start_ms := 0, text_index := 0, start_ms := 0 }
    { now := 10, mounted := true, suspended := false, hid_ready := true }
    (by decide) rfl 72 (by decide)

/-! ### Claim C10 -/

lemma seq_inv_switch {s : HidTaskState} (now : Nat) (h : SeqInv s) :
    SeqInv (hid_switch s now).1 := by
  obtain ⟨h1, h2⟩ := h
  rcases hcase : s.app_state with _ | _ | _ | _ | _ | _ | _ | _ | _ | _
  · rw [hid_switch_idle hcase]
    exact ⟨h1, by simp⟩
  · by_cases ht : 2000 < usub32 now s.state_start_ms
    · rw [hid_switch_wait_init_fire hcase ht]
      exact ⟨h1, by simp⟩
    · rw [hid_switch_wait_init_hold hcase ht]
      exact ⟨h1, h2⟩
  · rw [hid_switch_mouse_up hcase]
    exact ⟨h1, by simp⟩
  · rw [hid_switch_mouse_down hcase]
    exact ⟨h1, by simp⟩
  · rw [hid_switch_click_press hcase]
    exact ⟨h1, by simp⟩
  · rw [hid_switch_click_release hcase]
    exact ⟨h1, by simp⟩
  · by_cases ht : 500 < usub32 now s.state_start_ms
    · rw [hid_switch_wait_before_type_fire hcase ht]
      exact ⟨Nat.zero_le _, by simp⟩
    · rw [hid_switch_wait_before_type_hold hcase ht]
      exact ⟨h1, h2⟩
  · by_cases hz : text_byte s.text_index = 0
    · rw [hid_switch_type_char_nul hcase hz]
      exact ⟨h1, by simp⟩
    · rw [hid_switch_type_char_press hcase hz]
      refine ⟨h1, fun _ => ?_⟩
      rcases Nat.lt_or_ge s.text_index 12 with hlt | hge
      · exact hlt
      · exact absurd (text_byte_eq_zero hge) hz
  · rw [hid_switch_release_char hcase]
    have hlt : s.text_index < 12 := h2 hcase
    exact ⟨hlt, by simp⟩
  · rw [hid_switch_done hcase]
    exact ⟨h1, h2⟩

lemma seq_inv_task {s : HidTaskState} (i : TickInput) (h : SeqInv s) :
    SeqInv (hid_task s i).1 := by
  by_cases hg : usub32 i.now s.start_ms < 10
  · rw [hid_task_stall hg]; exact h
  · rw [hid_task_fires hg]
    have h' : SeqInv { s with start_ms := (s.start_ms + 10) % UINT32_MOD } :=
      ⟨h.1, fun hr => h.2 hr⟩
    rcases hm : i.mounted with _ | _
    · rw [hid_step_unmounted hm]
      exact ⟨h'.1, by simp⟩
    · rcases hsus : i.suspended with _ | _
      · rcases hr : i.hid_ready with _ | _
        · rw [hid_step_not_ready hm hsus hr]
          exact h'
        · rw [hid_step_eff hm hsus hr]
          exact seq_inv_switch i.now h'
      · rw [hid_step_suspended hm hsus]
        exact h'

lemma seq_inv_run {s : HidTaskState} (inputs : List TickInput) (h : SeqInv s) :
    SeqInv (run s inputs).1 := by
  induction inputs generalizing s with
  | nil => exact h
  | cons i rest ih =>
      rw [run_fst_cons]
      exact ih (seq_inv_task i h)

/-- C10: the cursor invariant `text_index ≤ 12` (the index of the
terminating NUL of "Hello World!", so `text_to_type[text_index]` stays
inside the buffer) holds at boot, is preserved by every `hid_task` tick, and
therefore holds in every reachable state; moreover, on an effective tick in
`STATE_TYPE_CHAR` reading the NUL, the machine moves to `STATE_DONE` without
incrementing the cursor, and the cursor is reset to 0 on the
`STATE_WAIT_BEFORE_TYPE` → `STATE_TYPE_CHAR` transition that re-enters the
typing loop. -/
theorem c10_cursor_bounds :
    SeqInv initState
    ∧ (∀ (s : HidTaskState) (i : TickInput), SeqInv s → SeqInv (hid_task s i).1)
    ∧ (∀ (s : HidTaskState) (inputs : List TickInput), SeqInv s →
        SeqInv (run s inputs).1)
    ∧ (∀ (s : HidTaskState) (i : TickInput), EffTick s i →
        s.app_state = STATE_TYPE_CHAR → text_byte s.text_index = 0 →
        (hid_task s i).1.app_state = STATE_DONE
        ∧ (hid_task s i).1.text_index = s.text_index)
    ∧ (∀ (s : HidTaskState) (i : TickInput), EffTick s i →
        s.app_state = STATE_WAIT_BEFORE_TYPE → 500 < usub32 i.now s.state_start_ms →
        (hid_task s i).1.app_state = STATE_TYPE_CHAR
        ∧ (hid_task s i).1.text_index = 0) := by
  refine ⟨by decide, fun s i h => seq_inv_task i h, fun s inputs h => seq_inv_run inputs h,
    ?_, ?_⟩
  · intro s i heff ha hz
    rw [hid_task_eff heff, hid_switch_type_char_nul (by simpa using ha) (by simpa using hz)]
    exact ⟨rfl, rfl⟩
  · intro s i heff ha ht
    rw [hid_task_eff heff,
      hid_switch_wait_before_type_fire (by simpa using ha) (by simpa using ht)]
    exact ⟨rfl, rfl⟩

/-- Witness for C10: the invariant-preservation part applied at a concrete
state and tick, and the NUL-to-Done part applied at cursor 12. -/
theorem c10_witness :
    SeqInv (hid_task { app_state := STATE_RELEASE_CHAR, state_start_ms := 0, text_index := 11, start_ms := 0 }
        { now := 10, mounted := true, suspended := false, hid_ready := true }).1
    ∧ (hid_task { app_state := STATE_TYPE_CHAR, state_start_ms := 0, text_index := 12, start_ms := 0 }
        { now := 10, mounted := true, suspended := false, hid_ready := true }).1.app_state
      = STATE_DONE :=
  ⟨c10_cursor_bounds.2.1
      { app_state := STATE_RELEASE_CHAR, state_start_ms := 0, text_index := 11, start_ms := 0 }
      { now := 10, mounted := true, suspended := false, hid_ready := true } (by decide),
   (c10_cursor_bounds.2.2.2.1
      { app_state := STATE_TYPE_CHAR, state_start_ms := 0, text_index := 12, start_ms := 0 }
      { now := 10, mounted := true, suspended := false, hid_ready := true }
      (by decide) rfl (by decide)).1⟩

/-! ### Claim C4 -/

lemma run_snd_cons_none {s s1 : HidTaskState} {i : TickInput} {rest : List TickInput}
    (h : hid_task s i = (s1, none)) : (run s (i :: rest)).2 = (run s1 rest).2 := by
  rw [run_cons_none h]

lemma run_snd_cons_some {s s1 : HidTaskState} {i : TickInput} {rest : List TickInput}
    {r : HidReport} (h : hid_task s i = (s1, some r)) :
    (run s (i :: rest)).2 = r :: (run s1 rest).2 := by
  rw [run_cons_some h]

lemma run_loop_trace :
    ∀ (inputs : List TickInput) (s : HidTaskState),
      (∀ i ∈ inputs, i.mounted = true ∧ i.suspended = false) →
      inLoop s.app_state →
      (run s inputs).2 = loopRun s.app_state s.text_index (effCount s.start_ms inputs) := by
  intro inputs
  induction inputs with
  | nil =>
      intro s _ _
      rfl
  | cons i rest ih =>
      intro s h hl
      obtain ⟨hm, hsus⟩ := h i (List.mem_cons_self i rest)
      have hrest : ∀ j ∈ rest, j.mounted = true ∧ j.suspended = false :=
        fun j hj => h j (List.mem_cons_of_mem i hj)
      by_cases hg : usub32 i.now s.start_ms < 10
      · rw [run_snd_cons_none (hid_task_stall hg)]
        have heq : effCount s.start_ms (i :: rest) = effCount s.start_ms rest := by
          simp [effCount, hg]
        rw [heq]
        exact ih s hrest hl
      · rcases hr : i.hid_ready with _ | _
        · have heq : effCount s.start_ms (i :: rest)
              = effCount ((s.start_ms + 10) % UINT32_MOD) rest := by
            simp [effCount, hg, hr]
          have htask : hid_task s i
              = ({ s with start_ms := (s.start_ms + 10) % UINT32_MOD }, none) := by
            rw [hid_task_fires hg, hid_step_not_ready hm hsus hr]
          rw [run_snd_cons_none htask, heq]
          exact ih _ hrest hl
        · have heq : effCount s.start_ms (i :: rest)
              = 1 + effCount ((s.start_ms + 10) % UINT32_MOD) rest := by
            simp [effCount, hg, hr]
          have htask : hid_task s i
              = hid_switch { s with start_ms := (s.start_ms + 10) % UINT32_MOD } i.now := by
            rw [hid_task_fires hg, hid_step_eff hm hsus hr]
          rw [heq]
          rcases hl with hT | hR | hD
          · by_cases hz : text_byte s.text_index = 0
            · have htask2 : hid_task s i
                  = ({ s with start_ms := (s.start_ms + 10) % UINT32_MOD,
                              app_state := STATE_DONE }, none) :=
                htask.trans (hid_switch_type_char_nul hT hz)
              have hstep : loopRun s.app_state s.text_index
                    (1 + effCount ((s.start_ms + 10) % UINT32_MOD) rest)
                  = loopRun STATE_DONE s.text_index
                    (effCount ((s.start_ms + 10) % UINT32_MOD) rest) := by
                rw [hT, Nat.add_comm]
                simp [loopRun, loopStep, hz]
              rw [run_snd_cons_none htask2, hstep]
              exact ih { s with start_ms := (s.start_ms + 10) % UINT32_MOD,
                                app_state := STATE_DONE } hrest (Or.inr (Or.inr rfl))
            · have htask2 : hid_task s i
                  = ({ s with start_ms := (s.start_ms + 10) % UINT32_MOD,
                              app_state := STATE_RELEASE_CHAR },
                     some (HidReport.keyboard REPORT_ID_KEYBOARD
                       (char_to_key (text_byte s.text_index)).2
                       [(char_to_key (text_byte s.text_index)).1, 0, 0, 0, 0, 0])) :=
                htask.trans (hid_switch_type_char_press hT hz)
              have hstep : loopRun s.app_state s.text_index
                    (1 + effCount ((s.start_ms + 10) % UINT32_MOD) rest)
                  = HidReport.keyboard REPORT_ID_KEYBOARD
                      (char_to_key (text_byte s.text_index)).2
                      [(char_to_key (text_byte s.text_index)).1, 0, 0, 0, 0, 0]
                    :: loopRun STATE_RELEASE_CHAR s.text_index
                        (effCount ((s.start_ms + 10) % UINT32_MOD) rest) := by
                rw [hT, Nat.add_comm]
                simp [loopRun, loopStep, hz, send_key_press, send_keyboard_report,
                  tud_hid_keyboard_report]
              have ihx := ih { s with start_ms := (s.start_ms + 10) % UINT32_MOD,
                                      app_state := STATE_RELEASE_CHAR } hrest
                (Or.inr (Or.inl rfl))
              rw [run_snd_cons_some htask2, hstep, ihx]
          · have htask2 : hid_task s i
                = ({ s with start_ms := (s.start_ms + 10) % UINT32_MOD,
                            text_index := s.text_index + 1,
                            app_state := STATE_TYPE_CHAR },
                   some (HidReport.keyboard REPORT_ID_KEYBOARD 0 [0, 0, 0, 0, 0, 0])) :=
              htask.trans (hid_switch_release_char hR)
            have hstep : loopRun s.app_state s.text_index
                  (1 + effCount ((s.start_ms + 10) % UINT32_MOD) rest)
                = HidReport.keyboard REPORT_ID_KEYBOARD 0 [0, 0, 0, 0, 0, 0]
                  :: loopRun STATE_TYPE_CHAR (s.text_index + 1)
                      (effCount ((s.start_ms + 10) % UINT32_MOD) rest) := by
              rw [hR, Nat.add_comm]
              simp [loopRun, loopStep, send_key_release, tud_hid_keyboard_report]
            have ihx := ih { s with start_ms := (s.start_ms + 10) % UINT32_MOD,
                                    text_index := s.text_index + 1,
                                    app_state := STATE_TYPE_CHAR } hrest (Or.inl rfl)
            rw [run_snd_cons_some htask2, hstep, ihx]
          · have htask2 : hid_task s i
                = ({ s with start_ms := (s.start_ms + 10) % UINT32_MOD }, none) :=
              htask.trans (hid_switch_done hD)
            have hstep : loopRun s.app_state s.text_index
                  (1 + effCount ((s.start_ms + 10) % UINT32_MOD) rest)
                = loopRun STATE_DONE s.text_index
                    (effCount ((s.start_ms + 10) % UINT32_MOD) rest) := by
              rw [hD, Nat.add_comm]
              simp [loopRun, loopStep]
            rw [run_snd_cons_none htask2, hstep, ← hD]
            exact ih { s with start_ms := (s.start_ms + 10) % UINT32_MOD } hrest
              (Or.inr (Or.inr hD))

/-- C4: (a) every effective tick in `STATE_RELEASE_CHAR` — the closing half
of a press/release pair — increments the text cursor by exactly 1, returns
to `STATE_TYPE_CHAR`, and sends the release report; (b) over any input
sequence of mounted, non-suspended ticks, from any state of the typing loop,
the emitted report sequence equals the pure loop trace determined solely by
the starting state, the starting cursor and the number of effective
(gate-passing, transport-ready) ticks — so readiness stalls neither skip nor
repeat a character, and a stall-then-resume run emits exactly the reports of
an uninterrupted run with the same number of effective ticks. -/
theorem c4_cursor_stall_insensitive :
    (∀ (s : HidTaskState) (i : TickInput), EffTick s i →
        s.app_state = STATE_RELEASE_CHAR →
        (hid_task s i).1.text_index = s.text_index + 1
        ∧ (hid_task s i).1.app_state = STATE_TYPE_CHAR
        ∧ (hid_task s i).2
            = some (HidReport.keyboard REPORT_ID_KEYBOARD 0 [0, 0, 0, 0, 0, 0]))
    ∧ (∀ (inputs : List TickInput) (s : HidTaskState),
        (∀ i ∈ inputs, i.mounted = true ∧ i.suspended = false) →
        inLoop s.app_state →
        (run s inputs).2 = loopRun s.app_state s.text_index (effCount s.start_ms inputs)) := by
  constructor
  · intro s i heff ha
    rw [hid_task_eff heff, hid_switch_release_char (by simpa using ha)]
    exact ⟨rfl, rfl, rfl⟩
  · exact fun inputs s h hl => run_loop_trace inputs s h hl

/-- Witness for C4: the pair-increment part at a concrete effective tick,
and the trace part on a concrete stalled-then-resumed input list. -/
theorem c4_witness :
    ((hid_task { app_state := STATE_RELEASE_CHAR, state_start_ms := 0, text_index := 3, start_ms := 0 }
        { now := 10, mounted := true, suspended := false, hid_ready := true }).1.text_index
      = ({ app_state := STATE_RELEASE_CHAR, state_start_ms := 0, text_index := 3, start_ms := 0 } : HidTaskState).text_index + 1
    ∧ (hid_task { app_state := STATE_RELEASE_CHAR, state_start_ms := 0, text_index := 3, start_ms := 0 }
        { now := 10, mounted := true, suspended := false, hid_ready := true }).1.app_state
      = STATE_TYPE_CHAR
    ∧ (hid_task { app_state := STATE_RELEASE_CHAR, state_start_ms := 0, text_index := 3, start_ms := 0 }
        { now := 10, mounted := true, suspended := false, hid_ready := true }).2
      = some (HidReport.keyboard REPORT_ID_KEYBOARD 0 [0, 0, 0, 0, 0, 0]))
    ∧ (run { app_state := STATE_TYPE_CHAR, state_start_ms := 0, text_index := 0, start_ms := 0 }
        [{ now := 10, mounted := true, suspended := false, hid_ready := false },
         { now := 20, mounted := true, suspended := false, hid_ready := true },
         { now := 30, mounted := true, suspended := false, hid_ready := true }]).2
      = loopRun
          ({ app_state := STATE_TYPE_CHAR, state_start_ms := 0, text_index := 0, start_ms := 0 } : HidTaskState).app_state
          ({ app_state := STATE_TYPE_CHAR, state_start_ms := 0, text_index := 0, start_ms := 0 } : HidTaskState).text_index
          (effCount
            ({ app_state := STATE_TYPE_CHAR, state_start_ms := 0, text_index := 0, start_ms := 0 } : HidTaskState).start_ms
            [{ now := 10, mounted := true, suspended := false, hid_ready := false },
             { now := 20, mounted := true, suspended := false, hid_ready := true },
             { now := 30, mounted := true, suspended := false, hid_ready := true }]) :=
  ⟨c4_cursor_stall_insensitive.1
      { app_state := STATE_RELEASE_CHAR, state_start_ms := 0, text_index := 3, start_ms := 0 }
      { now := 10, mounted := true, suspended := false, hid_ready := true }
      (by decide) rfl,
   c4_cursor_stall_insensitive.2
      [{ now := 10, mounted := true, suspended := false, hid_ready := false },
       { now := 20, mounted := true, suspended := false, hid_ready := true },
       { now := 30, mounted := true, suspended := false, hid_ready := true }]
      { app_state := STATE_TYPE_CHAR, state_start_ms := 0, text_index := 0, start_ms := 0 }
      (by decide) (by decide)⟩

/-! ### Claim C9 -/

/-- C9: with the indicator lock engaged exactly when `blink_interval_ms = 0`
(the value only the Capslock branch produces), and under the environment
assumption that an LED-bearing SET_REPORT is only delivered while the
ConnectionState is Mounted: (1) every callback preserves the invariant that,
when the lock is not engaged, the blink interval is the cadence of the
current ConnectionState; (2) a SET_REPORT with the Capslock bit set forces
interval 0 and the indicator steady-on; (3) one with the Capslock bit clear
drives the indicator off and restores the mounted cadence; (4) a zero-length
SET_REPORT payload changes nothing; and (5) a zero interval disables the
blinking task entirely. -/
theorem c9_indicator_lock :
    (∀ (s : SysState) (e : UsbEvent), IndicatorInv s → setReportGuard s e →
        IndicatorInv (lifecycle_step s e))
    ∧ (∀ (s : SysState) (kbd_leds : Nat) (rest : List Nat),
        kbd_leds &&& KEYBOARD_LED_CAPSLOCK ≠ 0 →
        lifecycle_step s
            (UsbEvent.setReport REPORT_ID_KEYBOARD HID_REPORT_TYPE_OUTPUT (kbd_leds :: rest))
          = { s with blink_interval_ms := 0, led_on := true })
    ∧ (∀ (s : SysState) (kbd_leds : Nat) (rest : List Nat),
        kbd_leds &&& KEYBOARD_LED_CAPSLOCK = 0 →
        lifecycle_step s
            (UsbEvent.setReport REPORT_ID_KEYBOARD HID_REPORT_TYPE_OUTPUT (kbd_leds :: rest))
          = { s with led_on := false, blink_interval_ms := BLINK_MOUNTED })
    ∧ (∀ s : SysState,
        lifecycle_step s (UsbEvent.setReport REPORT_ID_KEYBOARD HID_REPORT_TYPE_OUTPUT []) = s)
    ∧ (∀ (now : Nat) (t : LedTaskState), led_blinking_task 0 now t = (t, none)) := by
  refine ⟨?_, ?_, ?_, ?_, ?_⟩
  · intro s e hInv hguard
    cases e with
    | mount => intro _; rfl
    | umount => intro _; rfl
    | suspend en => intro _; rfl
    | resume =>
        rcases hm : s.mounted with _ | _ <;>
          simp [lifecycle_step, tud_resume_cb, IndicatorInv, hm, cadence]
    | setReport rid rtype buf =>
        by_cases h1 : rtype = HID_REPORT_TYPE_OUTPUT
        · by_cases h2 : rid = REPORT_ID_KEYBOARD
          · cases buf with
            | nil =>
                simpa [lifecycle_step, tud_hid_set_report_cb, h1, h2] using hInv
            | cons b bs =>
                have hconn : s.conn = ConnState.mounted :=
                  hguard ⟨h1, h2, by simp⟩
                by_cases h3 : b &&& KEYBOARD_LED_CAPSLOCK ≠ 0
                · simp [lifecycle_step, tud_hid_set_report_cb, h1, h2, h3, IndicatorInv]
                · simp [lifecycle_step, tud_hid_set_report_cb, h1, h2, h3, IndicatorInv,
                    hconn, cadence, BLINK_MOUNTED]
          · simpa [lifecycle_step, tud_hid_set_report_cb, h1, h2] using hInv
        · simpa [lifecycle_step, tud_hid_set_report_cb, h1] using hInv
  · intro s kbd_leds rest h3
    simp [lifecycle_step, tud_hid_set_report_cb, h3]
  · intro s kbd_leds rest h3
    simp [lifecycle_step, tud_hid_set_report_cb, h3]
  · intro s
    rfl
  · intro now t
    rfl

/-- Witness for C9: the invariant-preservation part applied to a concrete
mounted state receiving a Capslock-clearing SET_REPORT, and the
capslock-set, capslock-clear and zero-length parts at concrete payloads. -/
theorem c9_witness :
    IndicatorInv (lifecycle_step
      { blink_interval_ms := BLINK_MOUNTED, led_on := false, mounted := true,
        conn := ConnState.mounted, seq := initState }
      (UsbEvent.setReport REPORT_ID_KEYBOARD HID_REPORT_TYPE_OUTPUT [0]))
    ∧ lifecycle_step
        { blink_interval_ms := BLINK_MOUNTED, led_on := false, mounted := true,
          conn := ConnState.mounted, seq := initState }
        (UsbEvent.setReport REPORT_ID_KEYBOARD HID_REPORT_TYPE_OUTPUT [2])
      = { blink_interval_ms := 0, led_on := true, mounted := true,
          conn := ConnState.mounted, seq := initState }
    ∧ lifecycle_step
        { blink_interval_ms := 0, led_on := true, mounted := true,
          conn := ConnState.mounted, seq := initState }
        (UsbEvent.setReport REPORT_ID_KEYBOARD HID_REPORT_TYPE_OUTPUT [0])
      = { blink_interval_ms := BLINK_MOUNTED, led_on := false, mounted := true,
          conn := ConnState.mounted, seq := initState }
    ∧ lifecycle_step
        { blink_interval_ms := 0, led_on := true, mounted := true,
          conn := ConnState.mounted, seq := initState }
        (UsbEvent.setReport REPORT_ID_KEYBOARD HID_REPORT_TYPE_OUTPUT [])
      = { blink_interval_ms := 0, led_on := true, mounted := true,
          conn := ConnState.mounted, seq := initState }
    ∧ led_blinking_task 0 77 { start_ms := 0, led_state := false }
      = ({ start_ms := 0, led_state := false }, none) :=
  ⟨c9_indicator_lock.1
      { blink_interval_ms := BLINK_MOUNTED, led_on := false, mounted := true,
        conn := ConnState.mounted, seq := initState }
      (UsbEvent.setReport REPORT_ID_KEYBOARD HID_REPORT_TYPE_OUTPUT [0])
      (by decide) (by decide),
   c9_indicator_lock.2.1
      { blink_interval_ms := BLINK_MOUNTED, led_on := false, mounted := true,
        conn := ConnState.mounted, seq := initState } 2 [] (by decide),
   c9_indicator_lock.2.2.1
      { blink_interval_ms := 0, led_on := true, mounted := true,
        conn := ConnState.mounted, seq := initState } 0 [] (by decide),
   c9_indicator_lock.2.2.2.1
      { blink_interval_ms := 0, led_on := true, mounted := true,
        conn := ConnState.mounted, seq := initState },
   c9_indicator_lock.2.2.2.2 77 { start_ms := 0, led_state := false }⟩

/-! ### Claim C1 -/

/-- A session of 231 polling ticks at the 10 ms cadence, all mounted, not
suspended and transport-ready. -/
def c1Inputs : List TickInput :=
  (List.range 231).map
    (fun k => { now := 10 * (k + 1), mounted := true, suspended := false, hid_ready := true })

/-- C1: from boot (`STATE_IDLE`, cursor 0) with the device mounted, not
suspended and the transport ready on every tick, the sequencer emits exactly
one key-press report followed by one key-release report per character of
"Hello World!", in script order, with the left-shift modifier (2) set on
exactly the presses of `H` (keycode 11), `W` (26) and `!` (30), and ends in
`STATE_DONE` (reached right after the release of the trailing `!`, at cursor
12); moreover `STATE_DONE` is sticky: any further tick with the device
mounted leaves the state `STATE_DONE` and sends nothing. The keycodes are
`HID_KEY_A + offset` for letters, 44 (`HID_KEY_SPACE`) for the space and 30
(`HID_KEY_1`) for `!`; report id 1 is `REPORT_ID_KEYBOARD`. -/
theorem c1_types_hello_world :
    run initState c1Inputs =
      ({ app_state := STATE_DONE, state_start_ms := 10, text_index := 12, start_ms := 2310 },
      [       HidReport.keyboard 1 2 [11, 0, 0, 0, 0, 0],  -- press 'H' (left-shift)
       HidReport.keyboard 1 0 [0, 0, 0, 0, 0, 0],   -- release
       HidReport.keyboard 1 0 [8, 0, 0, 0, 0, 0],  -- press 'e'
       HidReport.keyboard 1 0 [0, 0, 0, 0, 0, 0],   -- release
       HidReport.keyboard 1 0 [15, 0, 0, 0, 0, 0],  -- press 'l'
       HidReport.keyboard 1 0 [0, 0, 0, 0, 0, 0],   -- release
       HidReport.keyboard 1 0 [15, 0, 0, 0, 0, 0],  -- press 'l'
       HidReport.keyboard 1 0 [0, 0, 0, 0, 0, 0],   -- release
       HidReport.keyboard 1 0 [18, 0, 0, 0, 0, 0],  -- press 'o'
       HidReport.keyboard 1 0 [0, 0, 0, 0, 0, 0],   -- release
       HidReport.keyboard 1 0 [44, 0, 0, 0, 0, 0],  -- press ' '
       HidReport.keyboard 1 0 [0, 0, 0, 0, 0, 0],   -- release
       HidReport.keyboard 1 2 [26, 0, 0, 0, 0, 0],  -- press 'W' (left-shift)
       HidReport.keyboard 1 0 [0, 0, 0, 0, 0, 0],   -- release
       HidReport.keyboard 1 0 [18, 0, 0, 0, 0, 0],  -- press 'o'
       HidReport.keyboard 1 0 [0, 0, 0, 0, 0, 0],   -- release
       HidReport.keyboard 1 0 [21, 0, 0, 0, 0, 0],  -- press 'r'
       HidReport.keyboard 1 0 [0, 0, 0, 0, 0, 0],   -- release
       HidReport.keyboard 1 0 [15, 0, 0, 0, 0, 0],  -- press 'l'
       HidReport.keyboard 1 0 [0, 0, 0, 0, 0, 0],   -- release
       HidReport.keyboard 1 0 [7, 0, 0, 0, 0, 0],  -- press 'd'
       HidReport.keyboard 1 0 [0, 0, 0, 0, 0, 0],   -- release
       HidReport.keyboard 1 2 [30, 0, 0, 0, 0, 0],  -- press '!' (left-shift)
       HidReport.keyboard 1 0 [0, 0, 0, 0, 0, 0]   -- release
      ])
    ∧ (∀ (s : HidTaskState) (i : TickInput), i.mounted = true →
        s.app_state = STATE_DONE →
        (hid_task s i).1.app_state = STATE_DONE ∧ (hid_task s i).2 = none) := by
  constructor
  · set_option maxRecDepth 100000 in decide
  · intro s i hm ha
    by_cases hg : usub32 i.now s.start_ms < 10
    · rw [hid_task_stall hg]
      exact ⟨ha, rfl⟩
    · rw [hid_task_fires hg]
      rcases hsus : i.suspended with _ | _
      · rcases hr : i.hid_ready with _ | _
        · rw [hid_step_not_ready hm hsus hr]
          exact ⟨ha, rfl⟩
        · rw [hid_step_eff hm hsus hr, hid_switch_done (by simpa using ha)]
          exact ⟨ha, rfl⟩
      · rw [hid_step_suspended hm hsus]
        exact ⟨ha, rfl⟩

/-- Witness for C1: the done-stickiness part applied at a concrete mounted
tick in `STATE_DONE`. -/
theorem c1_witness :
    (hid_task { app_state := STATE_DONE, state_start_ms := 10, text_index := 12, start_ms := 2310 }
        { now := 2320, mounted := true, suspended := false, hid_ready := true }).1.app_state
      = STATE_DONE
    ∧ (hid_task { app_state := STATE_DONE, state_start_ms := 10, text_index := 12, start_ms := 2310 }
        { now := 2320, mounted := true, suspended := false, hid_ready := true }).2 = none :=
  c1_types_hello_world.2
    { app_state := STATE_DONE, state_start_ms := 10, text_index := 12, start_ms := 2310 }
    { now := 2320, mounted := true, suspended := false, hid_ready := true } rfl rfl

end PicoHid
